import Mathlib

/-!
Shallow embedding of the workflow state machine in
`src/workflow_manager.py` (class `WorkflowManager`), together with the
pieces of `src/constants.py` it consults (`WEBSITE_URLS`).

Modelling conventions:
* Wall-clock time (`time.time()`) is passed explicitly as a `Nat` argument
  `now`; the float clock is modelled as monotone natural seconds.
* `subprocess.Popen` may raise; whether the launch raises is passed
  explicitly as a `launch_ok : Bool` argument.  `time.sleep` has no
  observable effect and is dropped.
* The tab manager collaborator is modelled by an argument
  `tabs : Option (List Tab)`: `none` models `self.tab_manager` being
  `None`, `some ts` models `get_all_tabs()` returning `ts`.
* The context store collaborator only receives `set_task`; its task string
  is recorded in the ghost field `context_task`.
* The field `last_cmd` is ghost instrumentation recording the command
  string handed to the process launcher on the most recent successful
  launch; `browser_process` records whether a process handle is tracked.
-/

/-- Lowercasing of a string, modelling the Python `str.lower()` calls;
defined by structural recursion over the character list so that it
evaluates by kernel reduction. -/
def str_toLower (s : String) : String :=
  String.mk (s.data.map Char.toLower)

/-- Drop leading whitespace characters from a character list. -/
def drop_ws : List Char → List Char
  | [] => []
  | c :: cs => if c.isWhitespace then drop_ws cs else c :: cs

/-- Strip whitespace from both ends, modelling Python `str.strip()`. -/
def str_trim (s : String) : String :=
  String.mk ((drop_ws (drop_ws s.data).reverse).reverse)

/-- Replace every space by a plus sign, modelling the Python call
`query.replace(' ', '+')`. -/
def replace_spaces : List Char → List Char
  | [] => []
  | c :: cs => (if c = ' ' then '+' else c) :: replace_spaces cs

/-- String form of `replace_spaces`. -/
def str_replace_spaces (s : String) : String :=
  String.mk (replace_spaces s.data)

/-- Test whether the first list is an initial segment of the second. -/
def starts_with : List Char → List Char → Bool
  | [], _ => true
  | _ :: _, [] => false
  | p :: ps, c :: cs => p == c && starts_with ps cs

/-- Substring containment on character lists, modelling the Python
`in` operator on strings (pattern occurs contiguously in the text). -/
def contains_sub (s pat : List Char) : Bool :=
  if starts_with pat s then true
  else
    match s with
    | [] => false
    | _ :: cs => contains_sub cs pat

/-- One entry returned by the tab manager; only the `title` key is
consulted by the workflow manager. -/
structure Tab where
  title : String
deriving DecidableEq

/-- The `WorkflowState` enum of `workflow_manager.py`. -/
inductive WorkflowState where
  | idle
  | browserStarting
  | profileSelection
  | browserReady
  | searching
  | videoPlaying
  | appOpening
deriving DecidableEq

/-- The `Workflow` class: a named ordered sequence of step labels with a
cursor and creation timestamp. -/
structure Workflow where
  name : String
  steps : List String
  current_step : Nat
  created_at : Nat
deriving DecidableEq

/-- The mutable fields of the `WorkflowManager` instance. -/
structure WorkflowManager where
  state : WorkflowState
  current_workflow : Option Workflow
  waiting_for : Option String
  browser_process : Option Unit
  selected_profile : Option String
  current_url : Option String
  state_timeout : Nat
  state_started_at : Option Nat
  context_task : Option String
  last_cmd : Option String
deriving DecidableEq

/-- The constructor `WorkflowManager.__init__`: initial state `IDLE`, all
session data cleared, timeout fixed at 10 seconds. -/
def initWM : WorkflowManager :=
  { state := WorkflowState.idle
    current_workflow := none
    waiting_for := none
    browser_process := none
    selected_profile := none
    current_url := none
    state_timeout := 10
    state_started_at := none
    context_task := none
    last_cmd := none }

/-- `WorkflowManager.set_state`: change state, overwrite the
`waiting_for` hint and stamp the entry time. -/
def set_state (wm : WorkflowManager) (new_state : WorkflowState)
    (waiting_for : Option String) (now : Nat) : WorkflowManager :=
  { wm with state := new_state, waiting_for := waiting_for,
            state_started_at := some now }

/-- `WorkflowManager.cancel_workflow`: discard the plan, return to IDLE
and clear `waiting_for`.  Note: it does not touch `state_started_at`. -/
def cancel_workflow (wm : WorkflowManager) : WorkflowManager :=
  { wm with current_workflow := none, state := WorkflowState.idle,
            waiting_for := none }

/-- `WorkflowManager.start_workflow`: install a fresh plan. -/
def start_workflow (wm : WorkflowManager) (workflow_name : String)
    (steps : List String) (now : Nat) : WorkflowManager :=
  { wm with
    current_workflow := some (Workflow.mk workflow_name steps 0 now) }

/-- `WorkflowManager.is_state_expired`: if an entry time has been
recorded, compare the elapsed time against the timeout; otherwise
report not expired. -/
def is_state_expired (wm : WorkflowManager) (now : Nat) : Bool :=
  match wm.state_started_at with
  | some t => decide (now - t > wm.state_timeout)
  | none => false

/-- The profile alias dictionary appearing (twice, identically) in
`handle_profile_selection` and `_get_chrome_profile`. -/
def profile_map (s : String) : Option String :=
  if s = "default" then some "Default"
  else if s = "me" then some "Default"
  else if s = "profile 1" then some "Profile 1"
  else if s = "profile1" then some "Profile 1"
  else if s = "1" then some "Profile 1"
  else if s = "amaan" then some "Profile 1"
  else if s = "profile 2" then some "Profile 2"
  else if s = "profile2" then some "Profile 2"
  else if s = "2" then some "Profile 2"
  else if s = "work" then some "Profile 2"
  else none

/-- `WorkflowManager._get_chrome_profile`: look the lowercased name up in
the alias map, falling back to the directory `Default`. -/
def get_chrome_profile (profile_name : String) : String :=
  (profile_map (str_toLower profile_name)).getD "Default"

/-- `WorkflowManager.handle_browser_opening`.  Returns the updated
manager and the `(success, message)` pair of the Python method. -/
def handle_browser_opening (wm : WorkflowManager) (browser_name : String)
    (profile : Option String) (launch_ok : Bool) (now : Nat) :
    WorkflowManager × Bool × String :=
  let wm := set_state wm WorkflowState.browserStarting
    (some "profile selection") now
  let wm := { wm with context_task := some ("opening_" ++ browser_name) }
  if str_toLower browser_name = "chrome" then
    let cmd : String :=
      match profile with
      | some p =>
          "google-chrome --profile-directory=\x22" ++ get_chrome_profile p ++ "\x22"
      | none => "google-chrome"
    if launch_ok then
      let wm := { wm with browser_process := some (), last_cmd := some cmd }
      match profile with
      | some p =>
          let wm := { wm with selected_profile := some p }
          let wm := set_state wm WorkflowState.browserReady none now
          (wm, true, "Chrome opened with " ++ p ++ " profile")
      | none =>
          let wm := set_state wm WorkflowState.profileSelection
            (some "profile name (e.g., \x27profile 1\x27, \x27amaan\x27)") now
          (wm, true,
            "Chrome is opening. Which profile? Say \x27Profile 1\x27 or \x27Amaan\x27")
    else
      let wm := set_state wm WorkflowState.idle none now
      (wm, false, "Failed to open Chrome")
  else
    if launch_ok then
      let wm := set_state wm WorkflowState.browserReady none now
      (wm, true, browser_name ++ " opened")
    else
      let wm := set_state wm WorkflowState.idle none now
      (wm, false, "Failed to open " ++ browser_name)

/-- `WorkflowManager.handle_profile_selection`.  The previous browser
process is terminated best-effort (no observable state change on
failure); `launch_ok` tells whether relaunching with the resolved
profile directory raised. -/
def handle_profile_selection (wm : WorkflowManager) (profile_input : String)
    (launch_ok : Bool) (now : Nat) : WorkflowManager × Bool × String :=
  if wm.state ≠ WorkflowState.profileSelection then
    (wm, false, "Not in profile selection mode")
  else
    let profile_input := str_trim (str_toLower profile_input)
    match profile_map profile_input with
    | none =>
        (wm, false, "Unknown profile: " ++ profile_input
          ++ ". Try \x27Profile 1\x27, \x27Amaan\x27, or \x27Profile 2\x27")
    | some profile_dir =>
        let cmd := "google-chrome --profile-directory=\x22" ++ profile_dir ++ "\x22"
        if launch_ok then
          let wm := { wm with browser_process := some (),
                              selected_profile := some profile_input,
                              last_cmd := some cmd }
          let wm := set_state wm WorkflowState.browserReady none now
          (wm, true,
            "Opened " ++ profile_input ++ " profile. What would you like to do?")
        else
          let wm := set_state wm WorkflowState.idle none now
          (wm, false, "Failed to open profile")

/-- The `WEBSITE_URLS` table of `src/constants.py`. -/
def WEBSITE_URLS (s : String) : Option String :=
  if s = "youtube" then some "https://youtube.com"
  else if s = "gmail" then some "https://gmail.com"
  else if s = "google" then some "https://google.com"
  else if s = "facebook" then some "https://facebook.com"
  else if s = "twitter" then some "https://twitter.com"
  else if s = "github" then some "https://github.com"
  else if s = "reddit" then some "https://reddit.com"
  else if s = "linkedin" then some "https://linkedin.com"
  else if s = "whatsapp" then some "https://web.whatsapp.com"
  else if s = "netflix" then some "https://netflix.com"
  else if s = "stackoverflow" then some "https://stackoverflow.com"
  else none

/-- Truthiness of `self.tab_manager and self.tab_manager.get_all_tabs()`:
true when there is no tab manager or it enumerates no tabs. -/
def tabs_empty (tabs : Option (List Tab)) : Bool :=
  match tabs with
  | none => true
  | some ts => ts.isEmpty

/-- `WorkflowManager.handle_website_opening`.  On the success path the
opened URL is recorded in `current_url` (as in the source). -/
def handle_website_opening (wm : WorkflowManager) (website_name : String)
    (tabs : Option (List Tab)) : WorkflowManager × Bool × String :=
  if (wm.state ≠ WorkflowState.browserReady ∧ wm.state ≠ WorkflowState.idle)
      ∧ tabs_empty tabs = true then
    (wm, false, "No browser is open. Say \x27Open Chrome\x27 first")
  else
    let url :=
      match WEBSITE_URLS (str_toLower website_name) with
      | some u => u
      | none => "https://www.google.com/search?q=" ++ website_name
    ({ wm with current_url := some url }, true, "Opening " ++ website_name)

/-- The tab-scanning loop of `handle_search_query`: per tab, in return
order, test the lowercased title for the substring youtube and then
google; first match wins. -/
def detect_platform : List Tab → Option String
  | [] => none
  | tab :: rest =>
      if contains_sub (str_toLower tab.title).data "youtube".data then
        some "youtube"
      else if contains_sub (str_toLower tab.title).data "google".data then
        some "google"
      else detect_platform rest

/-- Python falsiness of the `platform` argument (`None` or the empty
string). -/
def platform_falsy (platform : Option String) : Bool :=
  match platform with
  | none => true
  | some s => s == ""

/-- `WorkflowManager.handle_search_query`.  The method mutates no field
of the manager; the URL handed to `webbrowser.open` is returned as the
last component for observation. -/
def handle_search_query (wm : WorkflowManager) (tabs : Option (List Tab))
    (query : String) (platform : Option String) :
    WorkflowManager × Bool × String × String :=
  let platform :=
    if platform_falsy platform then
      match tabs with
      | some ts =>
          match detect_platform ts with
          | some p => some p
          | none => platform
      | none => platform
    else platform
  let url :=
    if platform = some "youtube" then
      "https://www.youtube.com/results?search_query=" ++ str_replace_spaces query
    else
      "https://www.google.com/search?q=" ++ str_replace_spaces query
  (wm, true, "Searching for " ++ query, url)

/-!
Theorems.  Each claim of the specification is settled by exactly one
theorem below, with a closed witness instantiation when the theorem
carries hypotheses.
-/

/-- C6.  `cancelWorkflow()` called from any state results in state IDLE,
`waiting_for = None`, and the active plan discarded. -/
theorem cancel_workflow_resets (wm : WorkflowManager) :
    (cancel_workflow wm).state = WorkflowState.idle
    ∧ (cancel_workflow wm).waiting_for = none
    ∧ (cancel_workflow wm).current_workflow = none :=
  ⟨rfl, rfl, rfl⟩

/-- C2.  In every state other than PROFILE_SELECTION, for every input and
every launch outcome, `selectProfile` returns the failed result with
message Not in profile selection mode and leaves the whole manager
(state and all other fields) unchanged. -/
theorem select_profile_outside_selection (wm : WorkflowManager)
    (s : String) (ok : Bool) (now : Nat)
    (h : wm.state ≠ WorkflowState.profileSelection) :
    handle_profile_selection wm s ok now
      = (wm, false, "Not in profile selection mode") := by
  unfold handle_profile_selection
  exact if_pos h

/-- Witness for C2 at the initial manager, whose state is IDLE. -/
theorem select_profile_outside_selection_witness :
    handle_profile_selection initWM "amaan" true 0
      = (initWM, false, "Not in profile selection mode") :=
  select_profile_outside_selection initWM "amaan" true 0 (by decide)

/-- C1.  `startBrowserOpening("chrome", profile)`: with no profile and a
successful launch it transitions to PROFILE_SELECTION with `waiting_for`
non-null and returns success with the profile prompt; with a profile and
a successful launch it transitions directly to BROWSER_READY and stores
the profile; when the launch raises it transitions to IDLE and returns a
failed (non-fatal) result. -/
theorem browser_opening_cases (wm : WorkflowManager) (p : String)
    (profile : Option String) (now : Nat) :
    ((handle_browser_opening wm "chrome" none true now).1.state
        = WorkflowState.profileSelection
      ∧ (handle_browser_opening wm "chrome" none true now).1.waiting_for ≠ none
      ∧ (handle_browser_opening wm "chrome" none true now).2.1 = true
      ∧ (handle_browser_opening wm "chrome" none true now).2.2
          = "Chrome is opening. Which profile? Say \x27Profile 1\x27 or \x27Amaan\x27")
    ∧ ((handle_browser_opening wm "chrome" (some p) true now).1.state
        = WorkflowState.browserReady
      ∧ (handle_browser_opening wm "chrome" (some p) true now).1.selected_profile
          = some p
      ∧ (handle_browser_opening wm "chrome" (some p) true now).2.1 = true)
    ∧ ((handle_browser_opening wm "chrome" profile false now).1.state
        = WorkflowState.idle
      ∧ (handle_browser_opening wm "chrome" profile false now).2.1 = false) := by
  have hc : str_toLower "chrome" = "chrome" := by decide
  refine ⟨⟨?_, ?_, ?_, ?_⟩, ⟨?_, ?_, ?_⟩, ?_, ?_⟩ <;>
    simp [handle_browser_opening, hc, set_state]

/-- C10.  For a profile string outside the alias map,
`startBrowserOpening("chrome", profile)` does not fail on the unknown
profile: the launched command falls back to the directory Default while
the raw unresolved input is stored as the selected profile, and on a
successful launch the machine still reaches BROWSER_READY. -/
theorem browser_opening_unknown_profile (wm : WorkflowManager)
    (p : String) (now : Nat)
    (hmap : profile_map (str_toLower p) = none) :
    get_chrome_profile p = "Default"
    ∧ (handle_browser_opening wm "chrome" (some p) true now).1.state
        = WorkflowState.browserReady
    ∧ (handle_browser_opening wm "chrome" (some p) true now).1.selected_profile
        = some p
    ∧ (handle_browser_opening wm "chrome" (some p) true now).2.1 = true
    ∧ (handle_browser_opening wm "chrome" (some p) true now).1.last_cmd
        = some "google-chrome --profile-directory=\x22Default\x22" := by
  have hc : str_toLower "chrome" = "chrome" := by decide
  have hd : get_chrome_profile p = "Default" := by
    unfold get_chrome_profile
    rw [hmap]
    rfl
  refine ⟨hd, ?_, ?_, ?_, ?_⟩ <;>
    simp [handle_browser_opening, hc, hd, set_state]

/-- Witness for C10 at the unmapped profile string banana. -/
theorem browser_opening_unknown_profile_witness :
    (handle_browser_opening initWM "chrome" (some "banana") true 0).1.last_cmd
      = some "google-chrome --profile-directory=\x22Default\x22" :=
  (browser_opening_unknown_profile initWM "banana" 0 (by decide)).2.2.2.2

/-- Helper: in PROFILE_SELECTION, when the normalized input resolves to a
profile directory and the relaunch succeeds, `handle_profile_selection`
computes exactly this record update and message. -/
theorem handle_profile_selection_found (wm : WorkflowManager) (s : String)
    (now : Nat) (dir : String)
    (hstate : wm.state = WorkflowState.profileSelection)
    (hdir : profile_map (str_trim (str_toLower s)) = some dir) :
    handle_profile_selection wm s true now
      = (set_state
          { wm with browser_process := some (),
                    selected_profile := some (str_trim (str_toLower s)),
                    last_cmd := some ("google-chrome --profile-directory=\x22"
                      ++ dir ++ "\x22") }
          WorkflowState.browserReady none now,
         true,
         "Opened " ++ str_trim (str_toLower s)
           ++ " profile. What would you like to do?") := by
  unfold handle_profile_selection
  rw [if_neg (by simp [hstate])]
  simp only [hdir]
  rfl

/-- C4.  For every input whose normalization is outside the alias map,
`selectProfile` in PROFILE_SELECTION returns a failed result whose
message names valid aliases, and the manager (hence the state, which
stays PROFILE_SELECTION) is unchanged; the aliases named in the message
are indeed in the map. -/
theorem select_profile_unknown (wm : WorkflowManager) (s : String)
    (ok : Bool) (now : Nat)
    (hstate : wm.state = WorkflowState.profileSelection)
    (hmap : profile_map (str_trim (str_toLower s)) = none) :
    handle_profile_selection wm s ok now
      = (wm, false, "Unknown profile: " ++ str_trim (str_toLower s)
          ++ ". Try \x27Profile 1\x27, \x27Amaan\x27, or \x27Profile 2\x27")
    ∧ (handle_profile_selection wm s ok now).1.state
        = WorkflowState.profileSelection
    ∧ profile_map "profile 1" = some "Profile 1"
    ∧ profile_map "amaan" = some "Profile 1"
    ∧ profile_map "profile 2" = some "Profile 2" := by
  have heq : handle_profile_selection wm s ok now
      = (wm, false, "Unknown profile: " ++ str_trim (str_toLower s)
          ++ ". Try \x27Profile 1\x27, \x27Amaan\x27, or \x27Profile 2\x27") := by
    unfold handle_profile_selection
    rw [if_neg (by simp [hstate])]
    simp only [hmap]
  exact ⟨heq, by rw [heq]; exact hstate, by decide, by decide, by decide⟩

/-- Witness for C4 at the unmapped input banana. -/
theorem select_profile_unknown_witness :
    (handle_profile_selection
      (set_state initWM WorkflowState.profileSelection (some "x") 0)
      "banana" true 5).1.state = WorkflowState.profileSelection :=
  (select_profile_unknown
    (set_state initWM WorkflowState.profileSelection (some "x") 0)
    "banana" true 5 rfl (by decide)).2.1

/-- C3.  Every input normalizing to one of the ten recognized aliases
(hence every letter case of an alias) resolves, in PROFILE_SELECTION
with a successful relaunch, to exactly one canonical directory per the
fixed mapping; the machine reaches BROWSER_READY with the selected
profile stored and the launched command scoped to that directory. -/
theorem select_profile_aliases (wm : WorkflowManager) (s : String)
    (now : Nat)
    (hstate : wm.state = WorkflowState.profileSelection)
    (halias : str_trim (str_toLower s) ∈
      ["default", "me", "profile 1", "profile1", "1", "amaan",
       "profile 2", "profile2", "2", "work"]) :
    ∃ dir, profile_map (str_trim (str_toLower s)) = some dir
      ∧ (dir = "Default" ∨ dir = "Profile 1" ∨ dir = "Profile 2")
      ∧ dir = (if str_trim (str_toLower s) = "default"
                  ∨ str_trim (str_toLower s) = "me" then "Default"
               else if str_trim (str_toLower s) = "profile 1"
                  ∨ str_trim (str_toLower s) = "profile1"
                  ∨ str_trim (str_toLower s) = "1"
                  ∨ str_trim (str_toLower s) = "amaan" then "Profile 1"
               else "Profile 2")
      ∧ (handle_profile_selection wm s true now).1.state
          = WorkflowState.browserReady
      ∧ (handle_profile_selection wm s true now).1.selected_profile
          = some (str_trim (str_toLower s))
      ∧ (handle_profile_selection wm s true now).2.1 = true
      ∧ (handle_profile_selection wm s true now).1.last_cmd
          = some ("google-chrome --profile-directory=\x22" ++ dir ++ "\x22") := by
  simp only [List.mem_cons, List.not_mem_nil, or_false] at halias
  rcases halias with h|h|h|h|h|h|h|h|h|h <;>
  · rw [handle_profile_selection_found wm s now _ hstate (by rw [h]; rfl)]
    rw [h]
    exact ⟨_, by decide, by decide, by decide, rfl, rfl, rfl, rfl⟩

/-- Witness for C3 at the mixed-case alias Work. -/
theorem select_profile_aliases_witness :
    (handle_profile_selection
      (set_state initWM WorkflowState.profileSelection (some "x") 0)
      "Work" true 5).1.state = WorkflowState.browserReady := by
  obtain ⟨dir, -, -, -, h4, -⟩ := select_profile_aliases
    (set_state initWM WorkflowState.profileSelection (some "x") 0)
    "Work" 5 rfl (by decide)
  exact h4

/-- C5.  `openWebsite` never changes the workflow state; in state IDLE it
succeeds even with no enumerable tabs; and it returns the failed
no-browser result exactly when the state is neither BROWSER_READY nor
IDLE and the tab directory enumerates no tabs. -/
theorem website_opening_guard (wm : WorkflowManager) (name : String)
    (tabs : Option (List Tab)) :
    (handle_website_opening wm name tabs).1.state = wm.state
    ∧ (wm.state = WorkflowState.idle →
        (handle_website_opening wm name tabs).2.1 = true)
    ∧ ((handle_website_opening wm name tabs).2.1 = false
        ↔ (wm.state ≠ WorkflowState.browserReady
            ∧ wm.state ≠ WorkflowState.idle ∧ tabs_empty tabs = true))
    ∧ ((handle_website_opening wm name tabs).2.1 = false →
        (handle_website_opening wm name tabs).2.2
          = "No browser is open. Say \x27Open Chrome\x27 first") := by
  unfold handle_website_opening
  split
  next h =>
    refine ⟨rfl, fun hidle => absurd hidle h.1.2, ?_, fun _ => rfl⟩
    exact ⟨fun _ => ⟨h.1.1, h.1.2, h.2⟩, fun _ => rfl⟩
  next h =>
    refine ⟨rfl, fun _ => rfl, ?_, ?_⟩
    · constructor
      · intro hx
        exact absurd hx (by simp)
      · intro hx
        exact absurd ⟨⟨hx.1, hx.2.1⟩, hx.2.2⟩ h
    · intro hx
      exact absurd hx (by simp)

/-- Witness for C5: in state IDLE with no tab manager, opening a website
still succeeds. -/
theorem website_opening_guard_witness :
    (handle_website_opening initWM "youtube" none).2.1 = true :=
  (website_opening_guard initWM "youtube" none).2.1 rfl

/-- C9.  `runSearch` always succeeds and mutates nothing; a given
platform string youtube, or no platform with a youtube-titled tab found
first, yields the YouTube results URL with spaces in the query replaced
by plus signs; a given non-empty platform other than youtube, or no
platform without a youtube match, yields the Google search URL with the
same replacement. -/
theorem search_query_platforms (wm : WorkflowManager)
    (tabs : Option (List Tab)) (query : String) (platform : Option String) :
    (handle_search_query wm tabs query platform).2.1 = true
    ∧ (handle_search_query wm tabs query platform).1 = wm
    ∧ (platform = some "youtube" →
        (handle_search_query wm tabs query platform).2.2.2
          = "https://www.youtube.com/results?search_query="
              ++ str_replace_spaces query)
    ∧ (platform = none →
        (handle_search_query wm tabs query platform).2.2.2
          = if detect_platform (tabs.getD []) = some "youtube" then
              "https://www.youtube.com/results?search_query="
                ++ str_replace_spaces query
            else
              "https://www.google.com/search?q=" ++ str_replace_spaces query)
    ∧ (∀ p, platform = some p → p ≠ "" → p ≠ "youtube" →
        (handle_search_query wm tabs query platform).2.2.2
          = "https://www.google.com/search?q=" ++ str_replace_spaces query) := by
  refine ⟨rfl, rfl, ?_, ?_, ?_⟩
  · rintro rfl
    simp [handle_search_query, platform_falsy]
  · rintro rfl
    cases tabs with
    | none => simp [handle_search_query, platform_falsy, detect_platform]
    | some ts =>
        cases hd : detect_platform ts with
        | none => simp [handle_search_query, platform_falsy, hd]
        | some q => simp [handle_search_query, platform_falsy, hd]
  · rintro p rfl hne hny
    simp [handle_search_query, platform_falsy, hne, hny]

/-- Witness for C9: the spec scenario, a tab titled YouTube - Cats and an
unspecified platform infer youtube and build the YouTube URL. -/
theorem search_query_platforms_witness :
    (handle_search_query initWM (some [Tab.mk "YouTube - Cats"])
      "cute cats" none).2.2.2
      = "https://www.youtube.com/results?search_query=cute+cats" := by
  have h := (search_query_platforms initWM (some [Tab.mk "YouTube - Cats"])
    "cute cats" none).2.2.2.1 rfl
  rw [h]
  decide

/-- One application of a public mutating operation of the manager
(the operations the command dispatcher may invoke), for arbitrary
inputs, launch outcomes, clock values and tab listings. -/
inductive Step : WorkflowManager → WorkflowManager → Prop where
  | browser_opening (wm : WorkflowManager) (b : String) (p : Option String)
      (ok : Bool) (now : Nat) :
      Step wm (handle_browser_opening wm b p ok now).1
  | profile_selection (wm : WorkflowManager) (s : String) (ok : Bool)
      (now : Nat) :
      Step wm (handle_profile_selection wm s ok now).1
  | website_opening (wm : WorkflowManager) (name : String)
      (tabs : Option (List Tab)) :
      Step wm (handle_website_opening wm name tabs).1
  | search_query (wm : WorkflowManager) (tabs : Option (List Tab))
      (q : String) (p : Option String) :
      Step wm (handle_search_query wm tabs q p).1
  | cancel (wm : WorkflowManager) : Step wm (cancel_workflow wm)
  | start_wf (wm : WorkflowManager) (n : String) (steps : List String)
      (now : Nat) :
      Step wm (start_workflow wm n steps now)

/-- Manager states reachable from the freshly constructed manager by the
public operations. -/
inductive Reachable : WorkflowManager → Prop where
  | init : Reachable initWM
  | step {wm wm' : WorkflowManager} :
      Reachable wm → Step wm wm' → Reachable wm'

/-- The machine invariant: `waiting_for` is set in PROFILE_SELECTION,
clear in IDLE, and the timeout constant is 10 seconds. -/
def WMInv (wm : WorkflowManager) : Prop :=
  (wm.state = WorkflowState.profileSelection → wm.waiting_for ≠ none)
  ∧ (wm.state = WorkflowState.idle → wm.waiting_for = none)
  ∧ wm.state_timeout = 10

theorem wminv_init : WMInv initWM := by
  refine ⟨fun h => ?_, fun _ => rfl, rfl⟩
  simp [initWM] at h

theorem wminv_browser_opening (wm : WorkflowManager) (b : String)
    (p : Option String) (ok : Bool) (now : Nat) (hw : WMInv wm) :
    WMInv (handle_browser_opening wm b p ok now).1 := by
  by_cases hb : str_toLower b = "chrome" <;> cases ok <;> cases p <;>
    simp [WMInv, handle_browser_opening, hb, set_state, hw.2.2]

theorem wminv_profile_selection (wm : WorkflowManager) (s : String)
    (ok : Bool) (now : Nat) (hw : WMInv wm) :
    WMInv (handle_profile_selection wm s ok now).1 := by
  unfold handle_profile_selection
  by_cases hst : wm.state ≠ WorkflowState.profileSelection
  · rw [if_pos hst]
    exact hw
  · rw [if_neg hst]
    cases hm : profile_map (str_trim (str_toLower s)) with
    | none => simpa [hm] using hw
    | some dir =>
        cases ok <;> simp [hm, WMInv, set_state, hw.2.2]

theorem wminv_website_opening (wm : WorkflowManager) (name : String)
    (tabs : Option (List Tab)) (hw : WMInv wm) :
    WMInv (handle_website_opening wm name tabs).1 := by
  unfold handle_website_opening
  split
  · exact hw
  · exact hw

theorem wminv_search_query (wm : WorkflowManager) (tabs : Option (List Tab))
    (q : String) (p : Option String) (hw : WMInv wm) :
    WMInv (handle_search_query wm tabs q p).1 :=
  hw

theorem wminv_cancel (wm : WorkflowManager) (hw : WMInv wm) :
    WMInv (cancel_workflow wm) := by
  refine ⟨fun h => ?_, fun _ => rfl, hw.2.2⟩
  simp [cancel_workflow] at h

theorem wminv_start_wf (wm : WorkflowManager) (n : String)
    (steps : List String) (now : Nat) (hw : WMInv wm) :
    WMInv (start_workflow wm n steps now) :=
  hw

theorem reachable_inv (wm : WorkflowManager) (h : Reachable wm) : WMInv wm := by
  induction h with
  | init => exact wminv_init
  | step _ hs ih =>
      cases hs with
      | browser_opening b p ok now => exact wminv_browser_opening _ b p ok now ih
      | profile_selection s ok now => exact wminv_profile_selection _ s ok now ih
      | website_opening name tabs => exact wminv_website_opening _ name tabs ih
      | search_query tabs q p => exact wminv_search_query _ tabs q p ih
      | cancel => exact wminv_cancel _ ih
      | start_wf n steps now => exact wminv_start_wf _ n steps now ih

/-- C7.  In every manager state reachable through the public operations
from the initial state, `waiting_for` is non-null in PROFILE_SELECTION
and null in IDLE. -/
theorem reachable_waiting_for (wm : WorkflowManager) (h : Reachable wm) :
    (wm.state = WorkflowState.profileSelection → wm.waiting_for ≠ none)
    ∧ (wm.state = WorkflowState.idle → wm.waiting_for = none) :=
  ⟨(reachable_inv wm h).1, (reachable_inv wm h).2.1⟩

/-- Witness for C7 at the initial manager. -/
theorem reachable_waiting_for_witness : initWM.waiting_for = none :=
  (reachable_waiting_for initWM Reachable.init).2 rfl

/-- C8 counterexample.  Enter PROFILE_SELECTION at time 0 and cancel the
workflow at time 11: the machine has just transitioned to IDLE (elapsed
time in the new state is 0), yet `isStateExpired` reports true at that
very instant, because `cancel_workflow` does not restamp
`state_started_at`.  This refutes the claim that the query returns false
immediately after a state transition and returns true exactly when the
elapsed time since the state was entered exceeds the timeout. -/
theorem expired_right_after_cancel :
    (cancel_workflow (set_state initWM WorkflowState.profileSelection
        (some "profile selection") 0)).state = WorkflowState.idle
    ∧ is_state_expired (cancel_workflow (set_state initWM
        WorkflowState.profileSelection (some "profile selection") 0)) 11
        = true := by
  decide

/-- C8 amended.  `isStateExpired` is read-only and forces no transition
(it is a plain function of the manager and the clock); for every
reachable manager the timeout constant is 10; the query returns false at
the instant of any transition made through `set_state` (which stamps the
entry time), returns true exactly when an entry time is recorded and
more than 10 seconds have elapsed since that last stamp, and returns
false whenever no entry time has ever been recorded.  `cancel_workflow`
does not restamp the entry time, so the query may be true immediately
after a cancellation. -/
theorem is_state_expired_behavior (wm : WorkflowManager)
    (st : WorkflowState) (w : Option String) (now : Nat)
    (hr : Reachable wm) :
    wm.state_timeout = 10
    ∧ is_state_expired (set_state wm st w now) now = false
    ∧ (∀ t, wm.state_started_at = some t →
        (is_state_expired wm now = true ↔ 10 < now - t))
    ∧ (wm.state_started_at = none → is_state_expired wm now = false) := by
  have h10 : wm.state_timeout = 10 := (reachable_inv wm hr).2.2
  refine ⟨h10, ?_, ?_, ?_⟩
  · simp [is_state_expired, set_state, Nat.sub_self]
  · intro t ht
    simp [is_state_expired, ht, h10]
  · intro h
    simp [is_state_expired, h]

/-- Witness for C8 amended: a freshly stamped PROFILE_SELECTION state is
unexpired at its entry instant, and eleven seconds after entry the
stamped manager reports expiry. -/
theorem is_state_expired_behavior_witness :
    is_state_expired (set_state initWM WorkflowState.profileSelection
        (some "p") 5) 5 = false
    ∧ (is_state_expired
        (handle_browser_opening initWM "chrome" none true 0).1 16 = true
        ↔ 10 < 16 - 0) := by
  constructor
  · exact (is_state_expired_behavior initWM WorkflowState.profileSelection
      (some "p") 5 Reachable.init).2.1
  · exact (is_state_expired_behavior
      (handle_browser_opening initWM "chrome" none true 0).1
      WorkflowState.idle none 16
      (Reachable.step Reachable.init
        (Step.browser_opening initWM "chrome" none true 0))).2.2.1 0 (by decide)
